import Mathlib

/-!
Verification of the presentation-surface negotiation logic of the
Vulkan-Tutorial repository (src/Presentation/swap_chain.cpp).

The embedding below translates the decision-making functions of the source
into executable Lean definitions:

* `QueueFamilyIndices.isComplete` and `findQueueFamilies` embed the queue
  family scan (swap_chain.cpp lines 57-64 and 529-560).  A queue family is
  abstracted to the two bits the scan inspects: whether its
  `queueFlags` contain `VK_QUEUE_GRAPHICS_BIT`, and the boolean answer of
  `vkGetPhysicalDeviceSurfaceSupportKHR` for it.
* `chooseSwapSurfaceFormat` embeds lines 382-388.  The source function is
  declared to return a `VkSurfaceFormatKHR` but has no return statement
  after the scan loop, so when no entry matches, control reaches the end of
  a non-void function; that path is embedded as `none`.
* `chooseSwapPresentMode` embeds lines 419-426.
* `chooseSwapExtent` embeds lines 444-461.  The source reads the requested
  framebuffer size via `glfwGetFramebufferSize` inside the function; the
  embedding takes that extent as the `framebufferExtent` parameter.
* `selectImageCount` embeds the image-count computation of `createSwapChain`
  (lines 299-305).  `imageCount` is a `uint32_t` in the source, so the
  increment is taken modulo 2^32.
* `sharingDecision` embeds the sharing-mode branch of `createSwapChain`
  (lines 322-333), after both optional indices have been unwrapped by
  `.value()` as the source does at line 323.
* `createSwapChainInfo` embeds the assembly of `VkSwapchainCreateInfoKHR`
  in `createSwapChain` (lines 308-361); the source sets
  `createInfo.oldSwapChain = VK_NULL_HANDLE` unconditionally (line 361),
  embedded as `oldSwapchain := none`.
* `checkDeviceExtensionSupport` and `isDeviceSuitable` embed lines 491-526.
  The source's return statement at line 504 reads
  `return indices.isComplete() extensionsSupported && swapChainAdequate;`
  which is missing the first `&&` and does not compile; the embedding uses
  the evident conjunction.
-/

namespace SwapChain

/-- Value of `std::numeric_limits<uint32_t>::max()`, the special marker used
by `chooseSwapExtent`. -/
def uint32Max : Nat := 4294967295

/-- Pixel width/height pair (`VkExtent2D`). -/
structure Extent where
  width : Nat
  height : Nat
deriving DecidableEq, Repr

/-- Abstraction of one queue family as seen by `findQueueFamilies`: whether
`queueFlags & VK_QUEUE_GRAPHICS_BIT` is set, and the result of the
`vkGetPhysicalDeviceSurfaceSupportKHR` query for this family. -/
structure QueueFamily where
  graphicsSupport : Bool
  presentSupport : Bool
deriving DecidableEq, Repr

/-- Optional graphics and present queue family indices
(swap_chain.cpp lines 57-60). -/
structure QueueFamilyIndices where
  graphicsFamily : Option Nat
  presentFamily : Option Nat
deriving DecidableEq, Repr

/-- Embeds `QueueFamilyIndices::isComplete` (swap_chain.cpp lines 61-63):
the source returns `graphicsFamily.has_value()` only. -/
def QueueFamilyIndices.isComplete (q : QueueFamilyIndices) : Bool :=
  q.graphicsFamily.isSome

/-- Embeds the scan loop of `findQueueFamilies` (swap_chain.cpp lines
538-557): for family `i`, the graphics index is assigned (unconditionally
overwritten) when the graphics bit is set, the present index is assigned
when the surface-support query answers true, and the loop breaks as soon as
`isComplete()` holds for the accumulated indices.  The second component of
the result counts how many families the loop examined (the source returns
only the indices; the count instruments the early break). -/
def findQueueFamiliesAux : Nat → QueueFamilyIndices → List QueueFamily →
    QueueFamilyIndices × Nat
  | _, acc, [] => (acc, 0)
  | i, acc, f :: rest =>
      let acc1 := if f.graphicsSupport then { acc with graphicsFamily := some i } else acc
      let acc2 := if f.presentSupport then { acc1 with presentFamily := some i } else acc1
      if acc2.isComplete then (acc2, 1)
      else
        let r := findQueueFamiliesAux (i + 1) acc2 rest
        (r.1, r.2 + 1)

/-- Embeds `findQueueFamilies` (swap_chain.cpp lines 529-560), starting the
scan at index 0 with both indices unset. -/
def findQueueFamilies (fams : List QueueFamily) : QueueFamilyIndices :=
  (findQueueFamiliesAux 0 ⟨none, none⟩ fams).1

/-- Number of queue families the scan of `findQueueFamilies` examines before
returning (instrumentation of the early `break`). -/
def scannedFamilies (fams : List QueueFamily) : Nat :=
  (findQueueFamiliesAux 0 ⟨none, none⟩ fams).2

/-- Index of the first family advertising graphics capability. -/
def firstGraphicsIdx : List QueueFamily → Option Nat
  | [] => none
  | f :: rest =>
      if f.graphicsSupport then some 0 else (firstGraphicsIdx rest).map (· + 1)

/-- Index of the first family with surface-present support. -/
def firstPresentIdx : List QueueFamily → Option Nat
  | [] => none
  | f :: rest =>
      if f.presentSupport then some 0 else (firstPresentIdx rest).map (· + 1)

/-- Index of the last family with surface-present support. -/
def lastPresentIdx : List QueueFamily → Option Nat
  | [] => none
  | f :: rest =>
      match lastPresentIdx rest with
      | some j => some (j + 1)
      | none => if f.presentSupport then some 0 else none

/-- First operand when it carries a value, otherwise the second; the shape
in which the scan's present candidate accumulates. -/
def mergePresent : Option Nat → Option Nat → Option Nat
  | some j, _ => some j
  | none, old => old

/-- Pixel formats relevant to `chooseSwapSurfaceFormat`; the first
constructor is `VK_FORMAT_B8G8R8A8_SRGB`, the others stand for any other
reported format. -/
inductive VkFormat where
  | b8g8r8a8Srgb
  | r8g8b8a8Srgb
  | b8g8r8a8Unorm
deriving DecidableEq, Repr

/-- Color spaces; the first constructor is
`VK_COLOR_SPACE_SRGB_NONLINEAR_KHR`, the second stands for any other. -/
inductive VkColorSpace where
  | srgbNonlinear
  | displayP3
deriving DecidableEq, Repr

/-- One `VkSurfaceFormatKHR` entry. -/
structure SurfaceFormat where
  format : VkFormat
  colorSpace : VkColorSpace
deriving DecidableEq, Repr

/-- Embeds `chooseSwapSurfaceFormat` (swap_chain.cpp lines 382-388): return
the first entry matching `VK_FORMAT_B8G8R8A8_SRGB` with
`VK_COLOR_SPACE_SRGB_NONLINEAR_KHR`.  The source has no statement after the
loop, so when no entry matches, control reaches the end of the non-void
function; that path is embedded as `none`. -/
def chooseSwapSurfaceFormat : List SurfaceFormat → Option SurfaceFormat
  | [] => none
  | f :: rest =>
      if f.format = VkFormat.b8g8r8a8Srgb ∧ f.colorSpace = VkColorSpace.srgbNonlinear
      then some f
      else chooseSwapSurfaceFormat rest

/-- The four `VkPresentModeKHR` values discussed by the source. -/
inductive PresentMode where
  | immediate
  | fifo
  | fifoRelaxed
  | mailbox
deriving DecidableEq, Repr

/-- Embeds `chooseSwapPresentMode` (swap_chain.cpp lines 419-426): return
`VK_PRESENT_MODE_MAILBOX_KHR` when the list contains it, else
`VK_PRESENT_MODE_FIFO_KHR`. -/
def chooseSwapPresentMode : List PresentMode → PresentMode
  | [] => PresentMode.fifo
  | m :: rest =>
      if m = PresentMode.mailbox then m else chooseSwapPresentMode rest

/-- Capability record (`VkSurfaceCapabilitiesKHR`), restricted to the fields
the source reads. -/
structure SurfaceCapabilities where
  minImageCount : Nat
  maxImageCount : Nat
  currentExtent : Extent
  minImageExtent : Extent
  maxImageExtent : Extent
  currentTransform : Nat
deriving DecidableEq, Repr

/-- Embeds `std::clamp(v, lo, hi)` as used at lines 456-457. -/
def clampU32 (v lo hi : Nat) : Nat :=
  if v < lo then lo else if hi < v then hi else v

/-- The full "let the application choose" marker extent, both components
equal to the `uint32_t` maximum. -/
def sentinelExtent : Extent := ⟨uint32Max, uint32Max⟩

/-- Embeds `chooseSwapExtent` (swap_chain.cpp lines 444-461): when
`currentExtent.width` differs from the `uint32_t` maximum, return
`currentExtent`; otherwise clamp the framebuffer extent component-wise into
the min/max image extent bounds.  The source queries the framebuffer size
via `glfwGetFramebufferSize`; here it is the `framebufferExtent`
parameter. -/
def chooseSwapExtent (caps : SurfaceCapabilities) (framebufferExtent : Extent) : Extent :=
  if caps.currentExtent.width ≠ uint32Max then caps.currentExtent
  else
    { width := clampU32 framebufferExtent.width caps.minImageExtent.width
        caps.maxImageExtent.width
      height := clampU32 framebufferExtent.height caps.minImageExtent.height
        caps.maxImageExtent.height }

/-- Embeds the image-count computation of `createSwapChain` (swap_chain.cpp
lines 299-305): `uint32_t imageCount = minImageCount + 1` (the increment
wraps modulo 2^32 since `imageCount` is a `uint32_t`), then clamp down to
`maxImageCount` when that is nonzero and exceeded. -/
def selectImageCount (caps : SurfaceCapabilities) : Nat :=
  let c := (caps.minImageCount + 1) % (uint32Max + 1)
  if caps.maxImageCount > 0 ∧ c > caps.maxImageCount then caps.maxImageCount else c

/-- The two `VkSharingMode` values used by the source. -/
inductive VkSharingMode where
  | exclusive
  | concurrent
deriving DecidableEq, Repr

/-- Sharing-related fields of `VkSwapchainCreateInfoKHR`. -/
structure SharingInfo where
  imageSharingMode : VkSharingMode
  queueFamilyIndexCount : Nat
  pQueueFamilyIndices : List Nat
deriving DecidableEq, Repr

/-- Embeds the sharing-mode branch of `createSwapChain` (swap_chain.cpp
lines 322-333), after both optional indices have been unwrapped by
`.value()` as at line 323: distinct indices give concurrent sharing over
the two-element index array, equal indices give exclusive sharing with no
explicit indices. -/
def sharingDecision (graphicsFamily presentFamily : Nat) : SharingInfo :=
  if graphicsFamily ≠ presentFamily then
    ⟨VkSharingMode.concurrent, 2, [graphicsFamily, presentFamily]⟩
  else
    ⟨VkSharingMode.exclusive, 0, []⟩

/-- Fields of `VkSwapchainCreateInfoKHR` populated by `createSwapChain`.
The old-swapchain handle is an optional opaque handle (modelled as `Nat`);
`none` stands for `VK_NULL_HANDLE`. -/
structure SwapchainCreateInfo where
  minImageCount : Nat
  imageFormat : VkFormat
  imageColorSpace : VkColorSpace
  imageExtent : Extent
  imageArrayLayers : Nat
  sharing : SharingInfo
  preTransform : Nat
  presentMode : PresentMode
  clipped : Bool
  oldSwapchain : Option Nat
deriving DecidableEq, Repr

/-- Embeds the assembly of `VkSwapchainCreateInfoKHR` in `createSwapChain`
(swap_chain.cpp lines 308-361).  The source sets
`createInfo.oldSwapChain = VK_NULL_HANDLE` unconditionally (line 361) and
takes no previous-chain input anywhere. -/
def createSwapChainInfo (caps : SurfaceCapabilities) (surfaceFormat : SurfaceFormat)
    (presentMode : PresentMode) (extent : Extent)
    (graphicsFamily presentFamily : Nat) : SwapchainCreateInfo :=
  { minImageCount := selectImageCount caps
    imageFormat := surfaceFormat.format
    imageColorSpace := surfaceFormat.colorSpace
    imageExtent := extent
    imageArrayLayers := 1
    sharing := sharingDecision graphicsFamily presentFamily
    preTransform := caps.currentTransform
    presentMode := presentMode
    clipped := true
    oldSwapchain := none }

/-- Modelled from the spec: SwapchainBuilder.build takes an optional
`previousChain` argument and the old-swapchain field of the create call
equals it — the previous chain when supplied, the null handle when absent.
The source's `createSwapChain` has no such parameter. -/
def specOldSwapchainField (previousChain : Option Nat) : Option Nat :=
  previousChain

/-- The required device extension list (swap_chain.cpp lines 30-32):
`VK_KHR_SWAPCHAIN_EXTENSION_NAME`. -/
def deviceExtensions : List String := ["VK_KHR_swapchain"]

/-- Embeds `checkDeviceExtensionSupport` (swap_chain.cpp lines 512-526):
every required extension must occur among the device's available extension
names (the source erases available names from the required set and checks
emptiness). -/
def checkDeviceExtensionSupport (availableExtensions : List String) : Bool :=
  deviceExtensions.all (fun e => availableExtensions.contains e)

/-- Embeds `isDeviceSuitable` (swap_chain.cpp lines 491-506).  The source's
return statement, `return indices.isComplete() extensionsSupported &&
swapChainAdequate;`, is missing the first `&&` and does not compile (and
`checkDeviceExtensionSupport` is defined twice, lines 507 and 512); the
embedding uses the evident conjunction over the actual `isComplete`. -/
def isDeviceSuitable (families : List QueueFamily) (availableExtensions : List String)
    (formats : List SurfaceFormat) (presentModes : List PresentMode) : Bool :=
  let indices := findQueueFamilies families
  let extensionsSupported := checkDeviceExtensionSupport availableExtensions
  let swapChainAdequate :=
    if extensionsSupported then !formats.isEmpty && !presentModes.isEmpty else false
  indices.isComplete && extensionsSupported && swapChainAdequate

/-- Capability record whose platform dictates a fixed 800x600 extent. -/
def fixedExtentCaps : SurfaceCapabilities :=
  { minImageCount := 2, maxImageCount := 8, currentExtent := ⟨800, 600⟩,
    minImageExtent := ⟨1, 1⟩, maxImageExtent := ⟨4096, 4096⟩, currentTransform := 0 }

/-- Capability record whose current extent has the sentinel width but a
non-sentinel height, so the extent pair differs from the full marker
value. -/
def mixedSentinelCaps : SurfaceCapabilities :=
  { minImageCount := 1, maxImageCount := 0, currentExtent := ⟨uint32Max, 5⟩,
    minImageExtent := ⟨1, 1⟩, maxImageExtent := ⟨10, 10⟩, currentTransform := 0 }

/-- Capability record whose current extent has a non-sentinel width but the
sentinel height. -/
def heightSentinelCaps : SurfaceCapabilities :=
  { minImageCount := 2, maxImageCount := 8, currentExtent := ⟨800, uint32Max⟩,
    minImageExtent := ⟨1, 1⟩, maxImageExtent := ⟨4096, 4096⟩, currentTransform := 0 }

/-- Capability record with minimum image count 2 and no maximum. -/
def unboundedCaps : SurfaceCapabilities :=
  { minImageCount := 2, maxImageCount := 0, currentExtent := ⟨800, 600⟩,
    minImageExtent := ⟨1, 1⟩, maxImageExtent := ⟨4096, 4096⟩, currentTransform := 0 }

/-- Capability record with minimum and maximum image count both 3. -/
def boundedCaps : SurfaceCapabilities :=
  { minImageCount := 3, maxImageCount := 3, currentExtent := ⟨800, 600⟩,
    minImageExtent := ⟨1, 1⟩, maxImageExtent := ⟨4096, 4096⟩, currentTransform := 0 }

/-- Capability record whose minimum image count is the `uint32_t` maximum,
so the image-count increment wraps around. -/
def wrapCaps : SurfaceCapabilities :=
  { minImageCount := uint32Max, maxImageCount := 0, currentExtent := ⟨800, 600⟩,
    minImageExtent := ⟨1, 1⟩, maxImageExtent := ⟨4096, 4096⟩, currentTransform := 0 }

/-- Characterization of the scan loop: starting from an accumulator whose
graphics index is unset, the loop stops right after the first
graphics-capable family (recording its index), or exhausts the list; the
present index accumulates as the most recent present-capable index over the
scanned prefix, falling back to the accumulator's value. -/
theorem findQueueFamiliesAux_spec (fams : List QueueFamily) :
    ∀ (i : Nat) (acc : QueueFamilyIndices), acc.graphicsFamily = none →
    findQueueFamiliesAux i acc fams =
      match firstGraphicsIdx fams with
      | some g =>
          ({ graphicsFamily := some (g + i),
             presentFamily :=
               mergePresent ((lastPresentIdx (fams.take (g + 1))).map (· + i))
                 acc.presentFamily }, g + 1)
      | none =>
          ({ graphicsFamily := none,
             presentFamily :=
               mergePresent ((lastPresentIdx fams).map (· + i)) acc.presentFamily },
           fams.length) := by
  induction fams with
  | nil =>
      intro i acc hg
      obtain ⟨ag, ap⟩ := acc
      have hag : ag = none := hg
      subst hag
      simp [findQueueFamiliesAux, firstGraphicsIdx, lastPresentIdx, mergePresent]
  | cons f rest ih =>
      intro i acc hg
      obtain ⟨ag, ap⟩ := acc
      have hag : ag = none := hg
      subst hag
      cases hf : f.graphicsSupport with
      | true =>
          cases hp : f.presentSupport with
          | true =>
              simp [findQueueFamiliesAux, firstGraphicsIdx, lastPresentIdx,
                mergePresent, hf, hp, QueueFamilyIndices.isComplete]
          | false =>
              simp [findQueueFamiliesAux, firstGraphicsIdx, lastPresentIdx,
                mergePresent, hf, hp, QueueFamilyIndices.isComplete]
      | false =>
          cases hp : f.presentSupport with
          | true =>
              have hrec := ih (i + 1) ⟨none, some i⟩ rfl
              rcases hfg : firstGraphicsIdx rest with _ | g
              · rcases hlp : lastPresentIdx rest with _ | j <;>
                  simp [findQueueFamiliesAux, firstGraphicsIdx, lastPresentIdx,
                    mergePresent, hf, hp, QueueFamilyIndices.isComplete, hrec, hfg,
                    hlp] <;>
                  omega
              · rcases hlp : lastPresentIdx (rest.take (g + 1)) with _ | j <;>
                  simp [findQueueFamiliesAux, firstGraphicsIdx, lastPresentIdx,
                    mergePresent, hf, hp, QueueFamilyIndices.isComplete, hrec, hfg,
                    hlp, List.take_succ_cons] <;>
                  omega
          | false =>
              have hrec := ih (i + 1) ⟨none, ap⟩ rfl
              rcases hfg : firstGraphicsIdx rest with _ | g
              · rcases hlp : lastPresentIdx rest with _ | j <;>
                  simp [findQueueFamiliesAux, firstGraphicsIdx, lastPresentIdx,
                    mergePresent, hf, hp, QueueFamilyIndices.isComplete, hrec, hfg,
                    hlp] <;>
                  omega
              · rcases hlp : lastPresentIdx (rest.take (g + 1)) with _ | j <;>
                  simp [findQueueFamiliesAux, firstGraphicsIdx, lastPresentIdx,
                    mergePresent, hf, hp, QueueFamilyIndices.isComplete, hrec, hfg,
                    hlp, List.take_succ_cons] <;>
                  omega

/-- C1 counterexample: on the family list where index 0 has graphics only
and index 1 has present only, the first present-capable index is 1, yet the
scan stops after index 0 (only the graphics candidate is set) and returns no
present candidate at all — refuting both "records the first family index
with surface-present support" and "terminates early only once BOTH
candidates are set". -/
theorem findQueueFamilies_misses_first_present :
    firstPresentIdx [QueueFamily.mk true false, QueueFamily.mk false true] = some 1
    ∧ (findQueueFamilies
        [QueueFamily.mk true false, QueueFamily.mk false true]).presentFamily = none
    ∧ scannedFamilies [QueueFamily.mk true false, QueueFamily.mk false true] = 1 := by
  decide

/-- C1 (amended): resolve records the first family index with graphics
capability as the graphics candidate and stops the scan at the end of that
family's iteration regardless of whether present support has been found
(scanning the whole list only when no family has graphics); the present
candidate is the most recent present-capable index among the scanned prefix,
which may be absent or later than the first present-capable index.  On a
family list where index 0 supports neither capability and index 1 has
graphics and present combined, resolve returns graphics=1 and present=1 and
stops scanning at index 1 (two families examined). -/
theorem findQueueFamilies_scan_behavior :
    (∀ fams : List QueueFamily,
      (findQueueFamilies fams).graphicsFamily = firstGraphicsIdx fams
      ∧ scannedFamilies fams =
          (match firstGraphicsIdx fams with
           | some g => g + 1
           | none => fams.length)
      ∧ (findQueueFamilies fams).presentFamily =
          lastPresentIdx (fams.take (scannedFamilies fams)))
    ∧ findQueueFamilies [QueueFamily.mk false false, QueueFamily.mk true true] =
        ⟨some 1, some 1⟩
    ∧ scannedFamilies [QueueFamily.mk false false, QueueFamily.mk true true] = 2 := by
  refine ⟨?_, by decide, by decide⟩
  intro fams
  have h := findQueueFamiliesAux_spec fams 0 ⟨none, none⟩ rfl
  rcases hfg : firstGraphicsIdx fams with _ | g
  · simp only [hfg] at h
    unfold findQueueFamilies scannedFamilies
    rw [h]
    rcases hlp : lastPresentIdx fams with _ | j <;>
      simp [mergePresent, hfg, hlp, List.take_length]
  · simp only [hfg] at h
    unfold findQueueFamilies scannedFamilies
    rw [h]
    rcases hlp : lastPresentIdx (fams.take (g + 1)) with _ | j <;>
      simp [mergePresent, hfg, hlp]

/-- C3: evaluation at the failing input — `isComplete` of the source checks
only `graphicsFamily.has_value()`, so indices with a graphics index but no
present index are judged complete, while the claim (and the rest of the
source, which unconditionally unwraps `presentFamily.value()`) requires both
indices present. -/
theorem isComplete_ignores_presentFamily :
    QueueFamilyIndices.isComplete ⟨some 0, none⟩ = true := by
  decide

/-- C2: evaluation at the failing input — the preferred BGRA sRGB pair is
returned when it occurs anywhere in the list, but on a non-empty list
lacking it the source has no fallback return statement (control reaches the
end of a non-void function), embedded as `none` instead of the claimed
first entry. -/
theorem chooseSwapSurfaceFormat_missing_fallback :
    chooseSwapSurfaceFormat
        [SurfaceFormat.mk VkFormat.r8g8b8a8Srgb VkColorSpace.srgbNonlinear] = none
    ∧ chooseSwapSurfaceFormat
        [SurfaceFormat.mk VkFormat.b8g8r8a8Unorm VkColorSpace.srgbNonlinear,
         SurfaceFormat.mk VkFormat.b8g8r8a8Srgb VkColorSpace.srgbNonlinear] =
        some (SurfaceFormat.mk VkFormat.b8g8r8a8Srgb VkColorSpace.srgbNonlinear) := by
  decide

/-- C5: for every presentation-mode list, the selection returns the mailbox
mode when it occurs anywhere in the list, returns FIFO when it does not,
and in every case returns one of those two modes. -/
theorem chooseSwapPresentMode_spec (modes : List PresentMode) :
    (PresentMode.mailbox ∈ modes → chooseSwapPresentMode modes = PresentMode.mailbox)
    ∧ (PresentMode.mailbox ∉ modes → chooseSwapPresentMode modes = PresentMode.fifo)
    ∧ (chooseSwapPresentMode modes = PresentMode.mailbox
       ∨ chooseSwapPresentMode modes = PresentMode.fifo) := by
  induction modes with
  | nil => simp [chooseSwapPresentMode]
  | cons m rest ih =>
      by_cases hm : m = PresentMode.mailbox
      · subst hm
        simp [chooseSwapPresentMode]
      · refine ⟨?_, ?_, ?_⟩
        · intro hmem
          rcases List.mem_cons.mp hmem with h1 | h2
          · exact absurd h1.symm hm
          · simp only [chooseSwapPresentMode, if_neg hm]
            exact ih.1 h2
        · intro hnot
          have hr : PresentMode.mailbox ∉ rest := fun hmem =>
            hnot (List.mem_cons_of_mem m hmem)
          simp only [chooseSwapPresentMode, if_neg hm]
          exact ih.2.1 hr
        · simp only [chooseSwapPresentMode, if_neg hm]
          exact ih.2.2

/-- C5 witness: a list containing mailbox yields mailbox; a list without it
yields FIFO. -/
theorem chooseSwapPresentMode_spec_witness :
    chooseSwapPresentMode [PresentMode.fifo, PresentMode.mailbox] = PresentMode.mailbox
    ∧ chooseSwapPresentMode [PresentMode.immediate, PresentMode.fifoRelaxed] =
        PresentMode.fifo :=
  ⟨(chooseSwapPresentMode_spec [PresentMode.fifo, PresentMode.mailbox]).1 (by decide),
   (chooseSwapPresentMode_spec
     [PresentMode.immediate, PresentMode.fifoRelaxed]).2.1 (by decide)⟩

/-- Clamping lands in the inclusive bounds whenever they are ordered. -/
theorem clampU32_bounds (v lo hi : Nat) (h : lo ≤ hi) :
    lo ≤ clampU32 v lo hi ∧ clampU32 v lo hi ≤ hi := by
  unfold clampU32
  split_ifs <;> omega

/-- C4 counterexample: a capability record whose current extent has the
sentinel width but height 5 is not the full "let the application choose"
marker pair, yet the selection does not return it verbatim — it clamps the
requested extent instead, because the source compares only the width
component. -/
theorem chooseSwapExtent_pair_sentinel_refuted :
    mixedSentinelCaps.currentExtent ≠ sentinelExtent
    ∧ chooseSwapExtent mixedSentinelCaps ⟨20, 20⟩ ≠ mixedSentinelCaps.currentExtent := by
  decide

/-- C4 (amended): the branch is decided by the width component alone — for
every capability record whose current-extent WIDTH is not the sentinel
value, the selection returns currentExtent verbatim for any requested
extent; when the width equals the sentinel, it returns the requested
framebuffer extent with width and height each independently clamped into
the inclusive [minImageExtent, maxImageExtent] bounds. -/
theorem chooseSwapExtent_branches (caps : SurfaceCapabilities) (fb : Extent) :
    (caps.currentExtent.width ≠ uint32Max →
        chooseSwapExtent caps fb = caps.currentExtent)
    ∧ (caps.currentExtent.width = uint32Max →
        chooseSwapExtent caps fb =
          ⟨clampU32 fb.width caps.minImageExtent.width caps.maxImageExtent.width,
           clampU32 fb.height caps.minImageExtent.height caps.maxImageExtent.height⟩
        ∧ (caps.minImageExtent.width ≤ caps.maxImageExtent.width →
            caps.minImageExtent.width ≤ (chooseSwapExtent caps fb).width
            ∧ (chooseSwapExtent caps fb).width ≤ caps.maxImageExtent.width)
        ∧ (caps.minImageExtent.height ≤ caps.maxImageExtent.height →
            caps.minImageExtent.height ≤ (chooseSwapExtent caps fb).height
            ∧ (chooseSwapExtent caps fb).height ≤ caps.maxImageExtent.height)) := by
  constructor
  · intro hw
    simp [chooseSwapExtent, hw]
  · intro hw
    have he : chooseSwapExtent caps fb =
        ⟨clampU32 fb.width caps.minImageExtent.width caps.maxImageExtent.width,
         clampU32 fb.height caps.minImageExtent.height caps.maxImageExtent.height⟩ := by
      simp [chooseSwapExtent, hw]
    refine ⟨he, fun hle => ?_, fun hle => ?_⟩
    · rw [he]
      exact clampU32_bounds fb.width caps.minImageExtent.width
        caps.maxImageExtent.width hle
    · rw [he]
      exact clampU32_bounds fb.height caps.minImageExtent.height
        caps.maxImageExtent.height hle

/-- C4 witness: a non-sentinel-width record returns its current extent
verbatim; a sentinel-width record clamps the requested 20x20 into
[1,10]x[1,10], giving 10x10. -/
theorem chooseSwapExtent_branches_witness :
    chooseSwapExtent fixedExtentCaps ⟨20, 20⟩ = Extent.mk 800 600
    ∧ chooseSwapExtent mixedSentinelCaps ⟨20, 20⟩ = Extent.mk 10 10 :=
  ⟨(chooseSwapExtent_branches fixedExtentCaps ⟨20, 20⟩).1 (by decide),
   ((chooseSwapExtent_branches mixedSentinelCaps ⟨20, 20⟩).2 (by decide)).1⟩

/-- C10: the branch decision of extent selection inspects only the width
component of the current extent — whenever the width differs from the
`uint32_t` maximum the current extent is returned verbatim (even when its
height equals the sentinel), and when the width equals the maximum the
result is unchanged under replacing the height by any value, since the
height is never compared against the sentinel. -/
theorem chooseSwapExtent_width_only (caps : SurfaceCapabilities) (fb : Extent) :
    (caps.currentExtent.width ≠ uint32Max →
        chooseSwapExtent caps fb = caps.currentExtent)
    ∧ (∀ h2 : Nat, caps.currentExtent.width = uint32Max →
        chooseSwapExtent
          { caps with currentExtent := ⟨caps.currentExtent.width, h2⟩ } fb =
          chooseSwapExtent caps fb) := by
  constructor
  · intro hw
    simp [chooseSwapExtent, hw]
  · intro h2 hw
    simp [chooseSwapExtent, hw]

/-- C10 witness: currentExtent = (800, sentinel) is returned verbatim since
only the width is compared; and for a sentinel-width record, replacing the
height (5 by 77) leaves the selection unchanged. -/
theorem chooseSwapExtent_width_only_witness :
    chooseSwapExtent heightSentinelCaps ⟨20, 20⟩ = Extent.mk 800 4294967295
    ∧ chooseSwapExtent
        { mixedSentinelCaps with currentExtent := ⟨uint32Max, 77⟩ } ⟨20, 20⟩ =
        chooseSwapExtent mixedSentinelCaps ⟨20, 20⟩ :=
  ⟨(chooseSwapExtent_width_only heightSentinelCaps ⟨20, 20⟩).1 (by decide),
   (chooseSwapExtent_width_only mixedSentinelCaps ⟨20, 20⟩).2 77 (by decide)⟩

/-- C6: for every pair of resolved queue indices, distinct indices give
concurrent sharing listing exactly the two indices with count 2, equal
indices give exclusive sharing with zero explicitly listed indices; the
declared count always matches the length of the listed index array. -/
theorem sharingDecision_spec (g p : Nat) :
    (g ≠ p → sharingDecision g p = ⟨VkSharingMode.concurrent, 2, [g, p]⟩)
    ∧ (g = p → sharingDecision g p = ⟨VkSharingMode.exclusive, 0, []⟩)
    ∧ (sharingDecision g p).queueFamilyIndexCount =
        (sharingDecision g p).pQueueFamilyIndices.length := by
  refine ⟨fun h => by simp [sharingDecision, h],
    fun h => by simp [sharingDecision, h], ?_⟩
  by_cases h : g = p <;> simp [sharingDecision, h]

/-- C6 witness: indices 0 and 2 give concurrent sharing over [0, 2]; equal
indices 0 and 0 give exclusive sharing with no listed indices. -/
theorem sharingDecision_spec_witness :
    sharingDecision 0 2 = ⟨VkSharingMode.concurrent, 2, [0, 2]⟩
    ∧ sharingDecision 0 0 = ⟨VkSharingMode.exclusive, 0, []⟩ :=
  ⟨(sharingDecision_spec 0 2).1 (by decide), (sharingDecision_spec 0 0).2.1 rfl⟩

/-- C7 counterexample: with `minImageCount` equal to the `uint32_t` maximum
and `maxImageCount = 0` (unbounded, so no clamping), the `uint32_t`
increment wraps around and the selected count is 0, not
`minImageCount + 1`. -/
theorem selectImageCount_wraps :
    selectImageCount wrapCaps = 0
    ∧ wrapCaps.maxImageCount = 0
    ∧ selectImageCount wrapCaps ≠ wrapCaps.minImageCount + 1 := by
  decide

/-- C7 (amended): for every capability record whose `minImageCount + 1`
stays within the `uint32_t` range, the requested image count equals
`minImageCount + 1`, except that when `maxImageCount` is nonzero and
exceeded the count clamps down to `maxImageCount`; a zero `maxImageCount`
never clamps.  At `minImageCount = 2^32 - 1` the increment wraps to 0. -/
theorem selectImageCount_spec (caps : SurfaceCapabilities)
    (h : caps.minImageCount + 1 < uint32Max + 1) :
    selectImageCount caps =
      if 0 < caps.maxImageCount ∧ caps.maxImageCount < caps.minImageCount + 1
      then caps.maxImageCount else caps.minImageCount + 1 := by
  simp only [selectImageCount]
  rw [Nat.mod_eq_of_lt h]

/-- C7 witness: min=2 with unbounded max gives 3; min=3 with max=3 clamps
to 3. -/
theorem selectImageCount_spec_witness :
    selectImageCount unboundedCaps = 3 ∧ selectImageCount boundedCaps = 3 := by
  constructor
  · rw [selectImageCount_spec unboundedCaps (by decide)]
    decide
  · rw [selectImageCount_spec boundedCaps (by decide)]
    decide

/-- C9 counterexample: the spec-side old-swapchain field passes a supplied
previous chain through, but the create-info assembled by the source sets the
old-swapchain handle to null unconditionally — `createSwapChain` takes no
previous-chain input, so a supplied chain can never reach the create
call. -/
theorem createSwapChainInfo_no_previous :
    specOldSwapchainField (some 7) = some 7
    ∧ (createSwapChainInfo fixedExtentCaps
        (SurfaceFormat.mk VkFormat.b8g8r8a8Srgb VkColorSpace.srgbNonlinear)
        PresentMode.fifo ⟨800, 600⟩ 0 1).oldSwapchain = none := by
  decide

/-- C9 (amended): the build operation accepts no previous-chain handle;
for every input, the create call's old-swapchain field is the null handle,
signalling a first-time creation even on a rebuild. -/
theorem createSwapChainInfo_oldSwapchain_null (caps : SurfaceCapabilities)
    (sf : SurfaceFormat) (pm : PresentMode) (e : Extent) (g p : Nat) :
    (createSwapChainInfo caps sf pm e g p).oldSwapchain = none := rfl

/-- C9 witness: the always-null field at a concrete input. -/
theorem createSwapChainInfo_oldSwapchain_null_witness :
    (createSwapChainInfo boundedCaps
        (SurfaceFormat.mk VkFormat.b8g8r8a8Srgb VkColorSpace.srgbNonlinear)
        PresentMode.mailbox ⟨640, 480⟩ 1 2).oldSwapchain = none :=
  createSwapChainInfo_oldSwapchain_null boundedCaps
    (SurfaceFormat.mk VkFormat.b8g8r8a8Srgb VkColorSpace.srgbNonlinear)
    PresentMode.mailbox ⟨640, 480⟩ 1 2

/-- C8: evaluation at the failing input — a device with a single
graphics-only queue family (no present support anywhere), the required
swapchain extension available, and non-empty format and mode lists is judged
suitable by the source, although its present queue index is absent; the
claim requires complete (graphics AND present) indices.  The source's return
statement is additionally missing the `&&` between `indices.isComplete()`
and `extensionsSupported` and so does not compile as written. -/
theorem isDeviceSuitable_without_present :
    isDeviceSuitable [QueueFamily.mk true false] deviceExtensions
        [SurfaceFormat.mk VkFormat.b8g8r8a8Srgb VkColorSpace.srgbNonlinear]
        [PresentMode.fifo] = true
    ∧ (findQueueFamilies [QueueFamily.mk true false]).presentFamily = none := by
  constructor <;> rfl

end SwapChain
